import Mathlib

/-!
Verification development for the CycloCalc static code profiler.

The Python source is shallowly embedded: each analyzed construct of the
Python `ast` module that the profiler inspects is represented by a node
kind, and every metric / classification function of the repository
(`cyclocalc/analyzer/metrics.py`, `cyclocalc/cli.py`,
`cyclocalc/report/report_generator.py`) is translated into a computable
Lean function over that embedding.  Machine integers are modelled by
`Int`/`Nat` (Python integers are unbounded, so no wrap-around is needed)
and Python floats produced by the ratio computations are modelled by `ℚ`
(every ratio here is a quotient of two integers; IEEE rounding of the
textual rendering is approximated in `format2`).
-/

namespace CycloCalc

/-- Expression context of a `Name` node (`ast.Load` / `ast.Store` / `ast.Del`). -/
inductive Ctx where
  | load
  | store
  | del
deriving DecidableEq

/-- One `ast.alias` entry of an import statement: the dotted module or symbol
name together with the optional `as` alias. -/
structure ImportAlias where
  aliasName : String
  asname : Option String
deriving DecidableEq

/-- The operator of an `ast.BoolOp` node (`ast.And` / `ast.Or`); in CPython the
`op` field of a `BoolOp` is always one of these two. -/
inductive BoolOpKind where
  | andOp
  | orOp
deriving DecidableEq

/-- The `ast.arguments` information that the naming checker reads: positional
argument names (`args.args`), keyword-only names (`args.kwonlyargs`), and the
optional `*args` / `**kwargs` names. -/
structure ArgSpec where
  args : List String
  kwonlyargs : List String
  vararg : Option String
  kwarg : Option String
deriving DecidableEq

/-- Node kinds of the Python syntax tree, restricted to the node classes the
profiler distinguishes; every other node class is `other`. -/
inductive Kind where
  | module
  | functionDef (defName : String) (argSpec : ArgSpec)
  | asyncFunctionDef (defName : String) (argSpec : ArgSpec)
  | classDef (defName : String)
  | ifStmt
  | forStmt
  | whileStmt
  | tryStmt
  | withStmt
  | asyncForStmt
  | asyncWithStmt
  | exceptHandler
  | assertStmt
  | boolOp (op : BoolOpKind)
  | importNode (aliases : List ImportAlias)
  | importFromNode (aliases : List ImportAlias)
  | nameExpr (id : String) (ctx : Ctx)
  | exprStmt
  | constantStr (value : String)
  | other
deriving DecidableEq

/-- A Python AST node: its kind, optional `lineno` / `end_lineno` position
attributes, and its child nodes in `ast.iter_child_nodes` order.  For
`module` / `functionDef` / `asyncFunctionDef` / `classDef` nodes the children
are the statements of the `body`, so that `ast.get_docstring` can inspect the
first body statement; the operands of a `boolOp` node (the `values` list) are
its children. -/
inductive PyNode where
  | mk (kind : Kind) (lineno endLineno : Option Nat) (children : List PyNode)

-- Structural boolean equality on nodes (the `deriving` handler does not treat
-- nested inductives), together with the proof making it a `DecidableEq`.
mutual

def nodeEq : PyNode → PyNode → Bool
  | .mk k1 l1 e1 cs1, .mk k2 l2 e2 cs2 =>
      decide (k1 = k2) && decide (l1 = l2) && decide (e1 = e2) && nodeListEq cs1 cs2

def nodeListEq : List PyNode → List PyNode → Bool
  | [], [] => true
  | [], _ :: _ => false
  | _ :: _, [] => false
  | a :: as, b :: bs => nodeEq a b && nodeListEq as bs

end

mutual

theorem nodeEq_iff : ∀ a b : PyNode, nodeEq a b = true ↔ a = b
  | .mk k1 l1 e1 cs1, .mk k2 l2 e2 cs2 => by
    simp [nodeEq, nodeListEq_iff cs1 cs2, and_assoc]

theorem nodeListEq_iff : ∀ as bs : List PyNode, nodeListEq as bs = true ↔ as = bs
  | [], [] => by simp [nodeListEq]
  | [], _ :: _ => by simp [nodeListEq]
  | _ :: _, [] => by simp [nodeListEq]
  | a :: as, b :: bs => by
    simp [nodeListEq, nodeEq_iff a b, nodeListEq_iff as bs]

end

instance : DecidableEq PyNode := fun a b => decidable_of_iff _ (nodeEq_iff a b)

def PyNode.kind : PyNode → Kind
  | .mk k _ _ _ => k

def PyNode.lineno : PyNode → Option Nat
  | .mk _ l _ _ => l

def PyNode.endLineno : PyNode → Option Nat
  | .mk _ _ e _ => e

def PyNode.children : PyNode → List PyNode
  | .mk _ _ _ cs => cs

-- `ast.walk(node)`: the node itself together with all of its descendants.
-- CPython yields them in breadth-first order; every use in the profiler is
-- order-insensitive (counting, set building), so the walk is modelled in
-- pre-order.
mutual

def walk : PyNode → List PyNode
  | .mk k l e cs => .mk k l e cs :: walkList cs

def walkList : List PyNode → List PyNode
  | [] => []
  | c :: cs => walk c ++ walkList cs

end

-- ---------------------------------------------------------------------------
-- analyzer/metrics.py : function-level metrics
-- ---------------------------------------------------------------------------

/-- Membership in the `decision_nodes` tuple of `calc_cc`. -/
def decisionNode : Kind → Bool
  | .ifStmt | .forStmt | .whileStmt | .exceptHandler | .withStmt
  | .assertStmt | .tryStmt | .asyncForStmt | .asyncWithStmt => true
  | _ => false

/-- Loop body of `calc_cc`: add 1 for a decision node, `len(values) - 1` for a
boolean operation (the `isinstance(node.op, bool_ops)` guard of the source is
always true, a `BoolOp`'s operator being `And` or `Or` by construction). -/
def cc_step (complexity : Int) (node : PyNode) : Int :=
  if decisionNode node.kind then complexity + 1
  else
    match node.kind with
    | .boolOp _ => complexity + ((node.children.length : Int) - 1)
    | _ => complexity

/-- `calc_cc`: cyclomatic complexity, starting at 1 and folding `cc_step`
over the full walk of the function's subtree. -/
def calc_cc (func_node : PyNode) : Int :=
  (walk func_node).foldl cc_step 1

/-- `calc_length`: `end_lineno - lineno + 1` when both position attributes are
present, `None` otherwise. -/
def calc_length (func_node : PyNode) : Option Int :=
  match func_node.lineno, func_node.endLineno with
  | some l, some e => some ((e : Int) - (l : Int) + 1)
  | _, _ => none

/-- Membership in the `nest_nodes` tuple of `calc_max_nesting`. -/
def nestNode : Kind → Bool
  | .ifStmt | .forStmt | .whileStmt | .tryStmt | .withStmt
  | .asyncForStmt | .asyncWithStmt => true
  | _ => false

-- The inner `dfs` of `calc_max_nesting`: the maximum over the subtree of the
-- depth reached, the depth increasing only when descending into a nesting
-- construct.
mutual

def nestDfs : PyNode → Nat → Nat
  | .mk _ _ _ cs, depth => nestDfsList cs depth

def nestDfsList : List PyNode → Nat → Nat
  | [], depth => depth
  | c :: cs, depth =>
      max (if nestNode c.kind then nestDfs c (depth + 1) else nestDfs c depth)
        (nestDfsList cs depth)

end

/-- `calc_max_nesting`: maximum nesting depth, starting the search at 0. -/
def calc_max_nesting (func_node : PyNode) : Nat :=
  nestDfs func_node 0

/-- The `FuncMetrics` dataclass. -/
structure FuncMetrics where
  cc : Int
  length : Option Int
  max_nest : Nat
deriving DecidableEq

/-- `collect_func_metrics`. -/
def collect_func_metrics (func_node : PyNode) : FuncMetrics :=
  { cc := calc_cc func_node
    length := calc_length func_node
    max_nest := calc_max_nesting func_node }

-- ---------------------------------------------------------------------------
-- cli.py : function extractor
-- ---------------------------------------------------------------------------

-- The `FunctionVisitor` of `list_functions`: a `ClassDef` pushes its name
-- around the visit of its children; a `FunctionDef` / `AsyncFunctionDef`
-- pushes its name, records the dot-joined stack, and visits its children;
-- every other node is traversed by `generic_visit`.  The mutable
-- `scope_stack` of the source is threaded as a value parameter.
mutual

def visitScoped (stack : List String) : PyNode → List (String × PyNode)
  | .mk (.classDef nm) l e cs =>
      let _ := (l, e)
      visitScopedList (stack ++ [nm]) cs
  | .mk (.functionDef nm a) l e cs =>
      (String.intercalate "." (stack ++ [nm]), .mk (.functionDef nm a) l e cs)
        :: visitScopedList (stack ++ [nm]) cs
  | .mk (.asyncFunctionDef nm a) l e cs =>
      (String.intercalate "." (stack ++ [nm]), .mk (.asyncFunctionDef nm a) l e cs)
        :: visitScopedList (stack ++ [nm]) cs
  | .mk _ _ _ cs => visitScopedList stack cs

def visitScopedList (stack : List String) : List PyNode → List (String × PyNode)
  | [] => []
  | c :: cs => visitScoped stack c ++ visitScopedList stack cs

end

/-- `list_functions`: all function and method definitions of a tree, paired
with their qualified names, in visit (pre-)order. -/
def list_functions (tree : PyNode) : List (String × PyNode) :=
  visitScoped [] tree

-- ---------------------------------------------------------------------------
-- String helpers (character-list implementations of the `str` methods and
-- `re` patterns used by metrics.py; a source file is modelled as its
-- `splitlines()` result, a list of lines without their newline terminators)
-- ---------------------------------------------------------------------------

/-- `line.strip().startswith("#")`: after discarding leading whitespace the
first character is `#`. -/
def startsWithHash (line : String) : Bool :=
  match line.toList.dropWhile Char.isWhitespace with
  | '#' :: _ => true
  | _ => false

/-- `len(line.rstrip("\n"))`: the length of the line once trailing newline
characters are removed (a no-op on `splitlines()` output, kept for
faithfulness). -/
def rstripNewlineLen (line : String) : Nat :=
  (line.toList.reverse.dropWhile (fun c => c = '\n')).length

/-- The `SNAKE_CASE_RE` pattern `^[a-z_][a-z0-9_]*$`. -/
def _is_snake_case (nm : String) : Bool :=
  match nm.toList with
  | [] => false
  | c :: cs =>
      (c.isLower || c = '_') && cs.all (fun d => d.isLower || d.isDigit || d = '_')

/-- The `CAPWORDS_RE` pattern `^[A-Z][a-zA-Z0-9]*$`. -/
def _is_capwords (nm : String) : Bool :=
  match nm.toList with
  | [] => false
  | c :: cs => c.isUpper && cs.all (fun d => d.isAlpha || d.isDigit)

/-- `name.split(".")[0]`: the segment of a dotted name before the first dot. -/
def baseSegment (nm : String) : String :=
  ⟨nm.toList.takeWhile (fun c => c ≠ '.')⟩

/-- `name.startswith("__") and name.endswith("__")` (dunder check). -/
def isDunder (nm : String) : Bool :=
  let cs := nm.toList
  (match cs with
   | '_' :: '_' :: _ => true
   | _ => false) &&
  (match cs.reverse with
   | '_' :: '_' :: _ => true
   | _ => false)

/-- Lexicographic comparison of strings by code points, as Python `<` on
`str` compares. -/
def charListLe : List Char → List Char → Bool
  | [], _ => true
  | _ :: _, [] => false
  | a :: as, b :: bs =>
      a.toNat < b.toNat || (a = b && charListLe as bs)

def strLe (a b : String) : Bool :=
  charListLe a.toList b.toList

/-- Insertion sort by `strLe`, modelling Python `sorted` on strings. -/
def insertSorted (x : String) : List String → List String
  | [] => [x]
  | y :: ys => if strLe x y then x :: y :: ys else y :: insertSorted x ys

def sortStrings (xs : List String) : List String :=
  xs.foldr insertSorted []

-- ---------------------------------------------------------------------------
-- analyzer/metrics.py : file-level metrics
-- ---------------------------------------------------------------------------

/-- `calc_comment_ratio`: comment lines over total lines, 0 for an empty
source. -/
def calc_comment_ratio (lines : List String) : ℚ :=
  if lines = [] then 0
  else ((lines.countP (fun l => startsWithHash l)) : ℚ) / (lines.length : ℚ)

/-- `calc_long_line_ratio` with its default `limit = 79`. -/
def calc_long_line_ratio (lines : List String) (limit : Nat := 79) : ℚ :=
  if lines = [] then 0
  else ((lines.countP (fun l => limit < rstripNewlineLen l)) : ℚ) / (lines.length : ℚ)

/-- `total_checked += 1` followed by a conditional `issues.append(msg)`:
the per-identifier step shared by the three naming checkers. -/
def tally (acc : Nat × List String) (ok : Bool) (msg : String) : Nat × List String :=
  (acc.1 + 1, acc.2 ++ if ok then [] else [msg])

/-- `check_func_and_class_names`: every function / async-function name must be
snake_case and every class name CapWords. -/
def check_func_and_class_names (tree : PyNode) : Nat × List String :=
  (walk tree).foldl
    (fun acc n =>
      match n.kind with
      | .functionDef nm _ =>
          tally acc (_is_snake_case nm) s!"Function name not snake_case: {nm}"
      | .asyncFunctionDef nm _ =>
          tally acc (_is_snake_case nm) s!"Async function name not snake_case: {nm}"
      | .classDef nm =>
          tally acc (_is_capwords nm) s!"Class name not CapWords: {nm}"
      | _ => acc)
    (0, [])

/-- `check_arg_names`: positional and keyword-only argument names, plus the
optional `*args` / `**kwargs` names, of every (async) function definition. -/
def check_arg_names (tree : PyNode) : Nat × List String :=
  (walk tree).foldl
    (fun acc n =>
      match n.kind with
      | .functionDef _ a | .asyncFunctionDef _ a =>
          let acc1 := (a.args ++ a.kwonlyargs).foldl
            (fun ac nm => tally ac (_is_snake_case nm) s!"Argument name not snake_case: {nm}")
            acc
          let acc2 := match a.vararg with
            | some nm => tally acc1 (_is_snake_case nm) s!"*args name not snake_case: {nm}"
            | none => acc1
          match a.kwarg with
          | some nm => tally acc2 (_is_snake_case nm) s!"**kwargs name not snake_case: {nm}"
          | none => acc2
      | _ => acc)
    (0, [])

/-- The `store_names` set of `check_var_names`: identifiers assigned somewhere
in the tree (`Name` nodes in `Store` context), deduplicated. -/
def store_names (tree : PyNode) : List String :=
  ((walk tree).filterMap
    (fun n =>
      match n.kind with
      | .nameExpr id .store => some id
      | _ => none)).dedup

/-- `check_var_names`: every stored name must be snake_case, with `_` and
dunder names exempt. -/
def check_var_names (tree : PyNode) : Nat × List String :=
  (store_names tree).foldl
    (fun acc nm =>
      if nm = "_" || isDunder nm then acc
      else tally acc (_is_snake_case nm) s!"Variable name not snake_case: {nm}")
    (0, [])

/-- `collect_naming_issues`: the three checkers combined; the ratio is
issues over identifiers checked, 0 when nothing was checked. -/
def collect_naming_issues (tree : PyNode) : ℚ × List String :=
  let r1 := check_func_and_class_names tree
  let r2 := check_arg_names tree
  let r3 := check_var_names tree
  let total_checked := r1.1 + r2.1 + r3.1
  let issues := r1.2 ++ r2.2 ++ r3.2
  (if 0 < total_checked then ((issues.length : ℚ) / (total_checked : ℚ)) else 0, issues)

/-- Does a definition kind take part in `calc_docstring_coverage`? -/
def isDefKind : Kind → Bool
  | .functionDef _ _ | .asyncFunctionDef _ _ | .classDef _ => true
  | _ => false

/-- Truthiness of `ast.get_docstring(node)`: the first body statement is an
expression statement holding a string constant, and the docstring is nonempty
once cleaned (`inspect.cleandoc` yields the empty string exactly for
all-whitespace input). -/
def hasTruthyDocstring (n : PyNode) : Bool :=
  match n.children.head? with
  | some (.mk .exprStmt _ _ [.mk (.constantStr v) _ _ _]) =>
      (v.toList.dropWhile Char.isWhitespace) ≠ []
  | _ => false

/-- `calc_docstring_coverage`: definitions (plus the module itself) carrying a
docstring, over all definitions plus one. -/
def calc_docstring_coverage (tree : PyNode) : ℚ :=
  let defs := (walk tree).filter (fun n => isDefKind n.kind)
  let total_defs := defs.length + 1
  let doc_with :=
    (if hasTruthyDocstring tree then 1 else 0) + defs.countP (fun d => hasTruthyDocstring d)
  if 0 < total_defs then ((doc_with : ℚ) / (total_defs : ℚ)) else 0

/-- The `imported` set built by `calc_unused_imports`: for a plain import the
alias, or else the base segment of the dotted module name; for a from-import
the alias, or else the imported symbol name, wildcards skipped. -/
def imported_names (tree : PyNode) : List String :=
  (walk tree).foldl
    (fun acc n =>
      match n.kind with
      | .importNode aliases =>
          acc ++ aliases.map (fun a => a.asname.getD (baseSegment a.aliasName))
      | .importFromNode aliases =>
          acc ++ (aliases.filter (fun a => a.aliasName ≠ "*")).map
            (fun a => a.asname.getD a.aliasName)
      | _ => acc)
    []

/-- The `used` set built by `calc_unused_imports`: identifiers read (`Load`
context) anywhere in the tree. -/
def used_names (tree : PyNode) : List String :=
  (walk tree).filterMap
    (fun n =>
      match n.kind with
      | .nameExpr id .load => some id
      | _ => none)

/-- `calc_unused_imports`: `sorted(x for x in imported if x not in used)`. -/
def calc_unused_imports (tree : PyNode) : List String :=
  sortStrings (((imported_names tree).dedup).filter
    (fun x => !((used_names tree).contains x)))

/-- The `FileMetrics` dataclass. -/
structure FileMetrics where
  comment_ratio : ℚ
  docstring_coverage : ℚ
  long_line_ratio : ℚ
  naming_issue_ratio : ℚ
  naming_issues : List String
  unused_imports : List String
deriving DecidableEq

/-- `collect_file_metrics`. -/
def collect_file_metrics (tree : PyNode) (lines : List String) : FileMetrics :=
  let naming := collect_naming_issues tree
  { comment_ratio := calc_comment_ratio lines
    docstring_coverage := calc_docstring_coverage tree
    long_line_ratio := calc_long_line_ratio lines
    naming_issue_ratio := naming.1
    naming_issues := naming.2
    unused_imports := calc_unused_imports tree }

-- ---------------------------------------------------------------------------
-- report/report_generator.py : thresholds, risk classification, smells
-- ---------------------------------------------------------------------------

def CC_HIGH : Int := 10
def CC_MED : Int := 7
def LEN_HIGH : Int := 60
def LEN_MED : Int := 40
def NEST_HIGH : Int := 5
def NEST_MED : Int := 3
def DOC_LOW : ℚ := 30 / 100
def COMMENT_LOW : ℚ := 2 / 100
def LONG_LINE_HIGH : ℚ := 10 / 100
def NAMING_HIGH : ℚ := 10 / 100

/-- Rendering of a ratio with the `:.2f` format specifier: the value scaled by
100 and rounded to the nearest integer, ties to even (this models CPython's
decimal rendering of the underlying binary float up to that float's own
representation error, which no claim depends on). -/
def roundHalfEvenZ (q : ℚ) : Int :=
  let f := ⌊q⌋
  if q - (f : ℚ) < 1 / 2 then f
  else if (1 : ℚ) / 2 < q - (f : ℚ) then f + 1
  else if f % 2 = 0 then f else f + 1

def format2 (q : ℚ) : String :=
  let n := roundHalfEvenZ (q * 100)
  let sign := if n < 0 then "-" else ""
  let m := n.natAbs
  let ip := m / 100
  let fp := m % 100
  sign ++ toString ip ++ "." ++ (if fp < 10 then "0" else "") ++ toString fp

/-- `", ".join(reasons) or fallback`: the joined reason list, with the
fallback text when the list (and hence the joined string) is empty. -/
def joinReasons (reasons : List String) (fallback : String) : String :=
  if reasons = [] then fallback else String.intercalate ", " reasons

/-- `risk_level`: 2 points per metric at the high threshold, else 1 at the
medium threshold; total 4 and above is high, 2 and above is medium. -/
def risk_level (cc length nest : Int) : String × String :=
  let p1 : Int × List String :=
    if cc ≥ CC_HIGH then (2, ["CC≥10"])
    else if cc ≥ CC_MED then (1, ["CC≥7"])
    else (0, [])
  let p2 : Int × List String :=
    if length ≥ LEN_HIGH then (2, ["LEN≥60"])
    else if length ≥ LEN_MED then (1, ["LEN≥40"])
    else (0, [])
  let p3 : Int × List String :=
    if nest ≥ NEST_HIGH then (2, ["NEST≥5"])
    else if nest ≥ NEST_MED then (1, ["NEST≥3"])
    else (0, [])
  let score := p1.1 + p2.1 + p3.1
  let reasons := p1.2 ++ p2.2 ++ p3.2
  if score ≥ 4 then ("high", joinReasons reasons "综合偏高")
  else if score ≥ 2 then ("medium", joinReasons reasons "中等风险")
  else ("low", joinReasons reasons "低风险")

/-- One per-function entry of the `func_stats` list built by
`generate_results` in cli.py. -/
structure FuncStat where
  file : String
  name : String
  cc : Int
  length : Int
  nest : Int
  lineno : Option Nat
deriving DecidableEq

/-- One per-file entry of the `file_stats` list built by `generate_results`
in cli.py. -/
structure FileStat where
  file : String
  comment_ratio : ℚ
  docstring_coverage : ℚ
  long_line_ratio : ℚ
  naming_issue_ratio : ℚ
  unused_imports_count : Nat
  unused_imports : List String
deriving DecidableEq

/-- A smell record as built by `detect_smells`. -/
structure Smell where
  type : String
  level : String
  target : String
  file : String
  name : String
  detail : String
deriving DecidableEq

/-- The function-level block of the `detect_smells` loop body: for each of the
three metrics an `if`/`elif` pair appends at most one smell. -/
def func_smells_for (f : FuncStat) : List Smell :=
  (if f.cc ≥ CC_HIGH then
    [{ type := "高复杂度函数", level := "high", target := "function",
       file := f.file, name := f.name, detail := s!"CC={f.cc}" }]
   else if f.cc ≥ CC_MED then
    [{ type := "中高复杂度函数", level := "medium", target := "function",
       file := f.file, name := f.name, detail := s!"CC={f.cc}" }]
   else []) ++
  (if f.length ≥ LEN_HIGH then
    [{ type := "超长函数", level := "high", target := "function",
       file := f.file, name := f.name, detail := s!"LEN={f.length}" }]
   else if f.length ≥ LEN_MED then
    [{ type := "较长函数", level := "medium", target := "function",
       file := f.file, name := f.name, detail := s!"LEN={f.length}" }]
   else []) ++
  (if f.nest ≥ NEST_HIGH then
    [{ type := "深嵌套函数", level := "high", target := "function",
       file := f.file, name := f.name, detail := s!"NEST={f.nest}" }]
   else if f.nest ≥ NEST_MED then
    [{ type := "较深嵌套函数", level := "medium", target := "function",
       file := f.file, name := f.name, detail := s!"NEST={f.nest}" }]
   else [])

/-- The file-level block of the `detect_smells` loop body. -/
def file_smells_for (fs : FileStat) : List Smell :=
  (if fs.docstring_coverage < DOC_LOW then
    [{ type := "Docstring覆盖偏低", level := "medium", target := "file",
       file := fs.file, name := "",
       detail := "DOC=" ++ format2 fs.docstring_coverage }]
   else []) ++
  (if fs.comment_ratio < COMMENT_LOW then
    [{ type := "注释率偏低", level := "medium", target := "file",
       file := fs.file, name := "",
       detail := "COMMENT=" ++ format2 fs.comment_ratio }]
   else []) ++
  (if LONG_LINE_HIGH < fs.long_line_ratio then
    [{ type := "长行比例偏高", level := "medium", target := "file",
       file := fs.file, name := "",
       detail := "LONG_LINE=" ++ format2 fs.long_line_ratio }]
   else []) ++
  (if NAMING_HIGH < fs.naming_issue_ratio then
    [{ type := "命名问题偏多", level := "medium", target := "file",
       file := fs.file, name := "",
       detail := "NAMING=" ++ format2 fs.naming_issue_ratio }]
   else []) ++
  (if 0 < fs.unused_imports_count then
    [{ type := "未使用导入(Imports)", level := "medium", target := "file",
       file := fs.file, name := "",
       detail := "unused=" ++ String.intercalate ", " fs.unused_imports }]
   else [])

/-- `detect_smells`: the function-level loop followed by the file-level
loop, all appends into one list. -/
def detect_smells (func_stats : List FuncStat) (file_stats : List FileStat) :
    List Smell :=
  func_stats.flatMap func_smells_for ++ file_stats.flatMap file_smells_for

-- ---------------------------------------------------------------------------
-- cli.py : file discovery and the per-file analysis loop
-- ---------------------------------------------------------------------------

/-- What the filesystem says about a path handed to `get_python_files`:
an existing regular file (with its suffix), an existing directory (with the
list of paths its recursive `*.py` glob yields), or neither. -/
inductive PathInfo where
  | fsFile (suffix : String)
  | fsDir (pyFiles : List String)
  | neither
deriving DecidableEq

/-- The inner `_skip` closure: the path string contains one of the ignore
substrings. -/
def containsSub (needle hay : List Char) : Bool :=
  match hay with
  | [] => decide (needle = [])
  | c :: cs => decide (needle = (c :: cs).take needle.length) || containsSub needle cs

def skipPath (ignore : List String) (s : String) : Bool :=
  ignore.any (fun ig => containsSub ig.toList s.toList)

/-- `get_python_files`, with the filesystem answer for `path` passed in as
`info`; a raised `FileNotFoundError` is an `Except.error`. -/
def get_python_files (path : String) (info : PathInfo) (ignore : List String) :
    Except String (List String) :=
  match info with
  | .fsFile suffix =>
      if suffix = ".py" then
        if skipPath ignore path then .ok [] else .ok [path]
      else .error s!"File \x27{path}\x27 is not a Python file."
  | .fsDir pyFiles =>
      let python_files := pyFiles.filter (fun f => !(skipPath ignore f))
      if python_files ≠ [] then .ok python_files
      else .error s!"No Python files found in directory \x27{path}\x27 (after ignore filter)."
  | .neither => .error s!"Path \x27{path}\x27 is not a file or directory."

/-- What `parse_source_to_ast(file_path)` yields for a file of the input
list: either the parsed tree together with the raw text (as its lines), or an
exception raised while reading / decoding / parsing, before any record for
the file has been produced.  `parseError` covers `SyntaxError` and
`UnicodeDecodeError`; `otherError` covers the remaining exception types. -/
inductive ParseOutcome where
  | parsed (tree : PyNode) (lines : List String)
  | parseError (msg : String)
  | otherError (msg : String)
deriving DecidableEq

structure FileInput where
  path : String
  outcome : ParseOutcome
deriving DecidableEq

/-- The four result accumulators of `generate_results`, plus the messages
written to the error stream. -/
structure GenResults where
  func_results : List String
  file_summaries : List String
  func_stats : List FuncStat
  file_stats : List FileStat
  errors : List String
deriving DecidableEq

def GenResults.empty : GenResults :=
  ⟨[], [], [], [], []⟩

def GenResults.append (a b : GenResults) : GenResults :=
  ⟨a.func_results ++ b.func_results,
   a.file_summaries ++ b.file_summaries,
   a.func_stats ++ b.func_stats,
   a.file_stats ++ b.file_stats,
   a.errors ++ b.errors⟩

/-- `LEN={m.length}` renders the Python `Optional[int]`: `None` or the
number. -/
def optIntStr : Option Int → String
  | none => "None"
  | some i => toString i

/-- One iteration of the `for file_path in all_files` loop of
`generate_results`: on success the file summary, the per-file record, the
per-function records and the threshold-filtered text lines; on an exception
the corresponding message on the error stream and nothing else. -/
def process_file (threshold : Int) (fi : FileInput) : GenResults :=
  match fi.outcome with
  | .parseError msg =>
      ⟨[], [], [], [], [s!"Skipping {fi.path} due to parse error: {msg}"]⟩
  | .otherError msg =>
      ⟨[], [], [], [], [s!"Error processing {fi.path}: {msg}"]⟩
  | .parsed tree lines =>
      let fm := collect_file_metrics tree lines
      let fileStat : FileStat :=
        { file := fi.path
          comment_ratio := fm.comment_ratio
          docstring_coverage := fm.docstring_coverage
          long_line_ratio := fm.long_line_ratio
          naming_issue_ratio := fm.naming_issue_ratio
          unused_imports_count := fm.unused_imports.length
          unused_imports := fm.unused_imports }
      let cr := format2 fm.comment_ratio
      let dc := format2 fm.docstring_coverage
      let ll := format2 fm.long_line_ratio
      let ni := format2 fm.naming_issue_ratio
      let ui := toString fm.unused_imports.length
      let summary :=
        s!"{fi.path}: COMMENT_RATIO={cr}, DOCSTRING_COV={dc}, " ++
        s!"LONG_LINE_RATIO={ll}, NAMING_ISSUE_RATIO={ni}, UNUSED_IMPORTS={ui}"
      let functions := list_functions tree
      let fstats := functions.map
        (fun p =>
          let m := collect_func_metrics p.2
          { file := fi.path
            name := p.1
            cc := m.cc
            length := m.length.getD 0
            nest := (m.max_nest : Int)
            lineno := p.2.lineno : FuncStat })
      let fresults := functions.filterMap
        (fun p =>
          let m := collect_func_metrics p.2
          if m.cc ≥ threshold then
            let len := optIntStr m.length
            let nst := toString m.max_nest
            some (s!"{fi.path}: Function \x27{p.1}\x27 " ++
              s!"CC={m.cc}, LEN={len}, NEST={nst}")
          else none)
      ⟨fresults, [summary], fstats, [fileStat], []⟩

/-- `generate_results`: the per-file loop, every iteration appending its
contribution to the four accumulators (or a message to the error stream). -/
def generate_results (all_files : List FileInput) (threshold : Int) : GenResults :=
  all_files.foldl (fun acc fi => acc.append (process_file threshold fi)) .empty

-- ---------------------------------------------------------------------------
-- Example trees (concrete syntax trees used by the claims' worked examples)
-- ---------------------------------------------------------------------------

/-- An empty `ast.arguments`. -/
def noArgs : ArgSpec := ⟨[], [], none, none⟩

/-- A `Name` node in `Load` context. -/
def nmLoad (s : String) : PyNode := .mk (.nameExpr s .load) none none []

/-- A `Name` node in `Store` context. -/
def nmStore (s : String) : PyNode := .mk (.nameExpr s .store) none none []

/-- A statement the profiler does not distinguish (e.g. `pass`). -/
def passNode : PyNode := .mk .other none none []

/-- `def f(): if x: pass; for i in xs: pass; a and b and c` — one `if`, one
`for`, and one three-operand boolean conjunction. -/
def exIfForBool : PyNode :=
  .mk (.functionDef "f" noArgs) (some 1) (some 6)
    [ .mk .ifStmt (some 2) (some 3) [nmLoad "x", passNode],
      .mk .forStmt (some 4) (some 5) [nmStore "i", nmLoad "xs", passNode],
      .mk .exprStmt (some 6) (some 6)
        [.mk (.boolOp .andOp) (some 6) (some 6) [nmLoad "a", nmLoad "b", nmLoad "c"]] ]

/-- `class A: def method(self): def inner(): pass`. -/
def exClassA : PyNode :=
  .mk .module none none
    [ .mk (.classDef "A") (some 1) (some 4)
        [ .mk (.functionDef "method" ⟨["self"], [], none, none⟩) (some 2) (some 4)
            [ .mk (.functionDef "inner" noArgs) (some 3) (some 4) [passNode] ] ] ]

/-- `class Outer: class Inner: def bar(self): pass` followed by
`async def foo(): pass`. -/
def exAsyncNested : PyNode :=
  .mk .module none none
    [ .mk (.classDef "Outer") (some 1) (some 3)
        [ .mk (.classDef "Inner") (some 2) (some 3)
            [ .mk (.functionDef "bar" ⟨["self"], [], none, none⟩) (some 3) (some 3)
                [passNode] ] ],
      .mk (.asyncFunctionDef "foo" noArgs) (some 5) (some 6) [passNode] ]

-- ---------------------------------------------------------------------------
-- Claim C1 — cyclomatic complexity
-- ---------------------------------------------------------------------------

/-- The weight that one visited node contributes to the complexity count:
1 for a conditional / loop / exception / with / assert / try node (async
included), `k - 1` for a boolean combination with `k` operands, 0 for
everything else. -/
def decision_weight (n : PyNode) : Int :=
  if decisionNode n.kind then 1
  else
    match n.kind with
    | .boolOp _ => (n.children.length : Int) - 1
    | _ => 0

theorem cc_step_eq (acc : Int) (n : PyNode) :
    cc_step acc n = acc + decision_weight n := by
  rcases n with ⟨k, l, e, cs⟩
  cases k <;>
    simp [cc_step, decision_weight, decisionNode, PyNode.kind, PyNode.children]

theorem foldl_cc_step (l : List PyNode) :
    ∀ init : Int, l.foldl cc_step init = init + (l.map decision_weight).sum := by
  induction l with
  | nil => intro init; simp
  | cons a as ih =>
      intro init
      simp [List.foldl_cons, cc_step_eq, ih, add_assoc]

theorem calc_cc_eq_walk_sum (n : PyNode) :
    calc_cc n = 1 + ((walk n).map decision_weight).sum := by
  simpa [calc_cc] using foldl_cc_step (walk n) 1

/-- C1: for every function node the computed cyclomatic complexity is 1 plus
one for each walked node that is an if / for / while / exception-handler /
with / assert / try construct (async variants included) plus `k - 1` for each
boolean AND/OR combination with `k` operands (a function node itself weighs
0, so the sum ranges effectively over the descendants); in particular the
function with one `if`, one `for`, and one `a and b and c` expression has
complexity 5. -/
theorem claim_C1_cyclomatic_complexity :
    (∀ n : PyNode, calc_cc n = 1 + ((walk n).map decision_weight).sum) ∧
    calc_cc exIfForBool = 5 := by
  exact ⟨calc_cc_eq_walk_sum, by decide⟩

-- ---------------------------------------------------------------------------
-- Claim C2 — complexity is not scope-exclusive
-- ---------------------------------------------------------------------------

theorem walkList_append (as bs : List PyNode) :
    walkList (as ++ bs) = walkList as ++ walkList bs := by
  induction as with
  | nil => simp [walkList]
  | cons a as ih => simp [walkList, ih]

theorem visitScopedList_append (stack : List String) (as bs : List PyNode) :
    visitScopedList stack (as ++ bs) =
      visitScopedList stack as ++ visitScopedList stack bs := by
  induction as with
  | nil => simp [visitScopedList]
  | cons a as ih => simp [visitScopedList, ih]

/-- C2: an outer function's complexity includes every decision point inside a
nested function definition (the walk does not skip nested defs): inserting a
nested `def` into the outer body adds exactly the nested subtree's decision
weight to the outer complexity, while the nested function is still extracted
as its own record next to the outer one. -/
theorem claim_C2_nested_defs_included :
    ∀ (nm : String) (a : ArgSpec) (l e : Option Nat) (cs1 cs2 : List PyNode)
      (inm : String) (ia : ArgSpec) (il ie : Option Nat) (ibody : List PyNode),
      calc_cc (.mk (.functionDef nm a) l e
          (cs1 ++ (.mk (.functionDef inm ia) il ie ibody) :: cs2))
        = calc_cc (.mk (.functionDef nm a) l e (cs1 ++ cs2))
          + ((walk (.mk (.functionDef inm ia) il ie ibody)).map decision_weight).sum ∧
      (String.intercalate "." [nm]) ∈
        (list_functions (.mk (.functionDef nm a) l e
          (cs1 ++ (.mk (.functionDef inm ia) il ie ibody) :: cs2))).map Prod.fst ∧
      (String.intercalate "." [nm, inm]) ∈
        (list_functions (.mk (.functionDef nm a) l e
          (cs1 ++ (.mk (.functionDef inm ia) il ie ibody) :: cs2))).map Prod.fst := by
  intro nm a l e cs1 cs2 inm ia il ie ibody
  refine ⟨?_, ?_, ?_⟩
  · simp only [calc_cc_eq_walk_sum, walk, walkList_append, walkList]
    simp [decision_weight, decisionNode, PyNode.kind]
    ring
  · simp [list_functions, visitScoped]
  · simp [list_functions, visitScoped, visitScopedList_append, visitScopedList]

-- ---------------------------------------------------------------------------
-- Claim C3 — risk classification
-- ---------------------------------------------------------------------------

/-- Risk score as the spec's words describe it: per metric 2 points at or
above the high threshold (complexity 10, length 60, nesting 5), else 1 point
at or above the medium threshold (complexity 7, length 40, nesting 3), else
0. -/
def riskScoreSpec (cc length nest : Int) : Int :=
  (if cc ≥ 10 then 2 else if cc ≥ 7 then 1 else 0) +
  (if length ≥ 60 then 2 else if length ≥ 40 then 1 else 0) +
  (if nest ≥ 5 then 2 else if nest ≥ 3 then 1 else 0)

theorem risk_level_fst (cc length nest : Int) :
    (risk_level cc length nest).1 =
      if 4 ≤ riskScoreSpec cc length nest then "high"
      else if 2 ≤ riskScoreSpec cc length nest then "medium"
      else "low" := by
  unfold risk_level riskScoreSpec CC_HIGH CC_MED LEN_HIGH LEN_MED NEST_HIGH NEST_MED
  dsimp only
  split_ifs <;> rfl

/-- C3: the risk level is "high" exactly when the three-metric score (2 points
at a high threshold, 1 at a medium threshold) reaches 4, "medium" exactly when
it is at least 2 but below 4, and "low" otherwise; complexity 10 / length 60 /
nesting 5 classifies "high" and complexity 7 / length 0 / nesting 0 classifies
"low". -/
theorem claim_C3_risk_level :
    (∀ cc length nest : Int,
      ((risk_level cc length nest).1 = "high" ↔ 4 ≤ riskScoreSpec cc length nest) ∧
      ((risk_level cc length nest).1 = "medium" ↔
        2 ≤ riskScoreSpec cc length nest ∧ riskScoreSpec cc length nest < 4) ∧
      ((risk_level cc length nest).1 = "low" ↔ riskScoreSpec cc length nest < 2)) ∧
    (risk_level 10 60 5).1 = "high" ∧ (risk_level 7 0 0).1 = "low" := by
  refine ⟨fun cc length nest => ?_, by decide, by decide⟩
  rw [risk_level_fst]
  split_ifs with h1 h2 <;>
    refine ⟨?_, ?_, ?_⟩ <;> simp <;> omega

-- ---------------------------------------------------------------------------
-- Claim C4 — qualified name extraction
-- ---------------------------------------------------------------------------

/-- The identifier a function or method definition node carries. -/
def defName? : Kind → Option String
  | .functionDef nm _ => some nm
  | .asyncFunctionDef nm _ => some nm
  | _ => none

mutual

theorem visitScoped_names :
    ∀ (n : PyNode) (stack : List String) (nm : String) (node : PyNode),
      (nm, node) ∈ visitScoped stack n →
      ∃ suf : List String, suf ≠ [] ∧
        nm = String.intercalate "." (stack ++ suf) ∧
        defName? node.kind = suf.getLast?
  | .mk k l e cs => by
    intro stack nm node hmem
    cases k with
    | classDef cnm =>
        simp only [visitScoped] at hmem
        obtain ⟨suf, hne, hnm, hlast⟩ := visitScopedList_names cs (stack ++ [cnm]) nm node hmem
        refine ⟨cnm :: suf, by simp, by simpa using hnm, ?_⟩
        obtain ⟨x, xs, rfl⟩ := List.exists_cons_of_ne_nil hne
        rw [hlast]
        exact List.getLast?_cons_cons.symm
    | functionDef fnm a =>
        simp only [visitScoped, List.mem_cons] at hmem
        rcases hmem with heq | hmem
        · obtain ⟨h1, h2⟩ := Prod.mk.injEq .. ▸ heq
          refine ⟨[fnm], by simp, by simpa using h1, ?_⟩
          rw [h2]
          simp [defName?, PyNode.kind]
        · obtain ⟨suf, hne, hnm, hlast⟩ := visitScopedList_names cs (stack ++ [fnm]) nm node hmem
          refine ⟨fnm :: suf, by simp, by simpa using hnm, ?_⟩
          obtain ⟨x, xs, rfl⟩ := List.exists_cons_of_ne_nil hne
          rw [hlast]
          exact List.getLast?_cons_cons.symm
    | asyncFunctionDef fnm a =>
        simp only [visitScoped, List.mem_cons] at hmem
        rcases hmem with heq | hmem
        · obtain ⟨h1, h2⟩ := Prod.mk.injEq .. ▸ heq
          refine ⟨[fnm], by simp, by simpa using h1, ?_⟩
          rw [h2]
          simp [defName?, PyNode.kind]
        · obtain ⟨suf, hne, hnm, hlast⟩ := visitScopedList_names cs (stack ++ [fnm]) nm node hmem
          refine ⟨fnm :: suf, by simp, by simpa using hnm, ?_⟩
          obtain ⟨x, xs, rfl⟩ := List.exists_cons_of_ne_nil hne
          rw [hlast]
          exact List.getLast?_cons_cons.symm
    | module => exact visitScopedList_names cs stack nm node (by simpa [visitScoped] using hmem)
    | ifStmt => exact visitScopedList_names cs stack nm node (by simpa [visitScoped] using hmem)
    | forStmt => exact visitScopedList_names cs stack nm node (by simpa [visitScoped] using hmem)
    | whileStmt => exact visitScopedList_names cs stack nm node (by simpa [visitScoped] using hmem)
    | tryStmt => exact visitScopedList_names cs stack nm node (by simpa [visitScoped] using hmem)
    | withStmt => exact visitScopedList_names cs stack nm node (by simpa [visitScoped] using hmem)
    | asyncForStmt => exact visitScopedList_names cs stack nm node (by simpa [visitScoped] using hmem)
    | asyncWithStmt => exact visitScopedList_names cs stack nm node (by simpa [visitScoped] using hmem)
    | exceptHandler => exact visitScopedList_names cs stack nm node (by simpa [visitScoped] using hmem)
    | assertStmt => exact visitScopedList_names cs stack nm node (by simpa [visitScoped] using hmem)
    | boolOp op => exact visitScopedList_names cs stack nm node (by simpa [visitScoped] using hmem)
    | importNode al => exact visitScopedList_names cs stack nm node (by simpa [visitScoped] using hmem)
    | importFromNode al => exact visitScopedList_names cs stack nm node (by simpa [visitScoped] using hmem)
    | nameExpr id ctx => exact visitScopedList_names cs stack nm node (by simpa [visitScoped] using hmem)
    | exprStmt => exact visitScopedList_names cs stack nm node (by simpa [visitScoped] using hmem)
    | constantStr v => exact visitScopedList_names cs stack nm node (by simpa [visitScoped] using hmem)
    | other => exact visitScopedList_names cs stack nm node (by simpa [visitScoped] using hmem)

theorem visitScopedList_names :
    ∀ (cs : List PyNode) (stack : List String) (nm : String) (node : PyNode),
      (nm, node) ∈ visitScopedList stack cs →
      ∃ suf : List String, suf ≠ [] ∧
        nm = String.intercalate "." (stack ++ suf) ∧
        defName? node.kind = suf.getLast?
  | [] => by intro stack nm node hmem; simp [visitScopedList] at hmem
  | c :: cs => by
    intro stack nm node hmem
    simp only [visitScopedList, List.mem_append] at hmem
    rcases hmem with h | h
    · exact visitScoped_names c stack nm node h
    · exact visitScopedList_names cs stack nm node h

end

/-- The `inner` definition node of `exClassA`. -/
def exInnerNode : PyNode :=
  .mk (.functionDef "inner" noArgs) (some 3) (some 4) [passNode]

/-- C4: every extracted record's qualified name is the scope stack at the
moment the definition is visited joined by dots, ending in the definition's
own name, the stack accumulating uniformly across class and function
boundaries; concretely, `class A: def method: def inner` extracts exactly
`A.method` and `A.method.inner`, and an async `foo` next to a method `bar` of
the nested class `Outer.Inner` both get correct dotted paths. -/
theorem claim_C4_qualified_names :
    (∀ (stack : List String) (tree : PyNode) (nm : String) (node : PyNode),
      (nm, node) ∈ visitScoped stack tree →
      ∃ suf : List String, suf ≠ [] ∧
        nm = String.intercalate "." (stack ++ suf) ∧
        defName? node.kind = suf.getLast?) ∧
    (list_functions exClassA).map Prod.fst = ["A.method", "A.method.inner"] ∧
    (list_functions exAsyncNested).map Prod.fst = ["Outer.Inner.bar", "foo"] := by
  refine ⟨fun stack tree => visitScoped_names tree stack, by decide, by decide⟩

theorem claim_C4_qualified_names_witness :
    ∃ suf : List String, suf ≠ [] ∧
      "A.method.inner" = String.intercalate "." ([] ++ suf) ∧
      defName? exInnerNode.kind = suf.getLast? :=
  claim_C4_qualified_names.1 [] exClassA "A.method.inner" exInnerNode (by decide)

-- ---------------------------------------------------------------------------
-- Claim C5 — at most one smell per metric per function
-- ---------------------------------------------------------------------------

/-- The two smell type tags the complexity rules can emit. -/
def isCCSmellType (t : String) : Bool :=
  t = "高复杂度函数" || t = "中高复杂度函数"

/-- The two smell type tags the length rules can emit. -/
def isLenSmellType (t : String) : Bool :=
  t = "超长函数" || t = "较长函数"

/-- The two smell type tags the nesting rules can emit. -/
def isNestSmellType (t : String) : Bool :=
  t = "深嵌套函数" || t = "较深嵌套函数"

/-- A function record crossing all three high thresholds at once, showing that
smells for different metrics coexist. -/
def exAllHighStat : FuncStat :=
  { file := "big.py", name := "huge", cc := 12, length := 80, nest := 6, lineno := some 1 }

/-- C5: per function record and per metric, `detect_smells` emits at most one
smell — exactly one high-level smell at or above the high threshold (the
medium rule does not also fire), exactly one medium-level smell at or above
only the medium threshold, and none below; the per-function contributions
concatenate, and different metrics' smells for the same function coexist. -/
theorem claim_C5_one_smell_per_metric :
    (∀ (f : FuncStat) (fs : List FuncStat) (files : List FileStat),
      detect_smells (f :: fs) files = detect_smells [f] [] ++ detect_smells fs files) ∧
    (∀ f : FuncStat,
      ((detect_smells [f] []).filter (fun s => isCCSmellType s.type)).map (fun s => s.level)
        = (if f.cc ≥ CC_HIGH then ["high"]
           else if f.cc ≥ CC_MED then ["medium"] else []) ∧
      ((detect_smells [f] []).filter (fun s => isLenSmellType s.type)).map (fun s => s.level)
        = (if f.length ≥ LEN_HIGH then ["high"]
           else if f.length ≥ LEN_MED then ["medium"] else []) ∧
      ((detect_smells [f] []).filter (fun s => isNestSmellType s.type)).map (fun s => s.level)
        = (if f.nest ≥ NEST_HIGH then ["high"]
           else if f.nest ≥ NEST_MED then ["medium"] else [])) ∧
    (detect_smells [exAllHighStat] []).map (fun s => s.level) = ["high", "high", "high"] := by
  refine ⟨?_, ?_, by decide⟩
  · intro f fs files
    simp [detect_smells]
  · intro f
    refine ⟨?_, ?_, ?_⟩ <;>
      · simp only [detect_smells, List.flatMap_cons, List.flatMap_nil,
          List.append_nil, func_smells_for]
        split_ifs <;>
          simp [isCCSmellType, isLenSmellType, isNestSmellType]

-- ---------------------------------------------------------------------------
-- Claim C6 — unused imports
-- ---------------------------------------------------------------------------

theorem mem_insertSorted (x y : String) (l : List String) :
    x ∈ insertSorted y l ↔ x = y ∨ x ∈ l := by
  induction l with
  | nil => simp [insertSorted]
  | cons a as ih =>
      simp only [insertSorted]
      split_ifs <;> simp [ih] <;> tauto

theorem mem_sortStrings (x : String) (l : List String) :
    x ∈ sortStrings l ↔ x ∈ l := by
  induction l with
  | nil => simp [sortStrings]
  | cons a as ih =>
      simp only [sortStrings] at ih ⊢
      simp [mem_insertSorted, ih]

/-- `import os` with the name `os` never read afterwards. -/
def exImportOsUnused : PyNode :=
  .mk .module none none
    [ .mk (.importNode [⟨"os", none⟩]) (some 1) (some 1) [] ]

/-- `import os` followed by the expression statement `os.getcwd()`: the call's
`Attribute` hangs off a `Name os` in `Load` context. -/
def exImportOsUsed : PyNode :=
  .mk .module none none
    [ .mk (.importNode [⟨"os", none⟩]) (some 1) (some 1) [],
      .mk .exprStmt (some 2) (some 2)
        [ .mk .other (some 2) (some 2)
            [ .mk .other (some 2) (some 2) [nmLoad "os"] ] ] ]

/-- C6: an identifier is reported among the unused imports exactly when it is
an imported name (the alias when given, else the base module segment for a
plain import or the symbol name for a from-import, wildcards contributing
nothing — this is what `imported_names` collects) that never occurs as a
`Load` reference anywhere in the file; importing `os` without referencing it
reports `["os"]`, while `os.getcwd()` suppresses the finding. -/
theorem claim_C6_unused_imports :
    (∀ (tree : PyNode) (x : String),
      x ∈ calc_unused_imports tree ↔
        x ∈ imported_names tree ∧ x ∉ used_names tree) ∧
    calc_unused_imports exImportOsUnused = ["os"] ∧
    calc_unused_imports exImportOsUsed = [] := by
  refine ⟨fun tree x => ?_, by decide, by decide⟩
  simp [calc_unused_imports, mem_sortStrings, List.mem_filter, List.elem_iff]

-- ---------------------------------------------------------------------------
-- Claim C7 — reported length
-- ---------------------------------------------------------------------------

/-- A function node exposing a start line but no end line. -/
def exNoEndFunc : PyNode :=
  .mk (.functionDef "f" noArgs) (some 5) none [passNode]

/-- A module whose only function lacks an end line. -/
def exNoEndTree : PyNode :=
  .mk .module none none [exNoEndFunc]

/-- C7 counterexample: for a function node with no end-line position,
`calc_length` is indeed absent, but the pipeline's per-function record
reports the length as the substituted value 0 rather than as absent — the
claim's "never substituted by a guessed value" fails on the `func_stats`
output of `generate_results`. -/
theorem claim_C7_counterexample :
    calc_length exNoEndFunc = none ∧
    ((generate_results [⟨"x.py", .parsed exNoEndTree []⟩] 1).func_stats).map
      (fun s => s.length) = [0] := by
  exact ⟨rfl, by decide⟩

/-- C7 amended: the reported length is `end_line - start_line + 1` when the
node exposes both positions and `calc_length` reports absence otherwise, but
the per-function records of `generate_results` substitute 0 for an absent
length (`m.length if m.length is not None else 0`). -/
theorem claim_C7_length_amended :
    (∀ (n : PyNode) (l e : Nat), n.lineno = some l → n.endLineno = some e →
      calc_length n = some ((e : Int) - (l : Int) + 1)) ∧
    (∀ n : PyNode, (n.lineno = none ∨ n.endLineno = none) → calc_length n = none) ∧
    (∀ (path : String) (tree : PyNode) (lines : List String) (threshold : Int),
      (generate_results [⟨path, .parsed tree lines⟩] threshold).func_stats =
        (list_functions tree).map (fun p =>
          { file := path
            name := p.1
            cc := calc_cc p.2
            length := (calc_length p.2).getD 0
            nest := (calc_max_nesting p.2 : Int)
            lineno := p.2.lineno : FuncStat })) := by
  refine ⟨?_, ?_, ?_⟩
  · intro n l e hl he
    simp [calc_length, hl, he]
  · intro n h
    rcases h with h | h <;> simp [calc_length, h] <;> cases hx : n.lineno <;> simp
  · intro path tree lines threshold
    simp [generate_results, process_file, GenResults.append, GenResults.empty,
      collect_func_metrics]

theorem claim_C7_length_amended_witness :
    calc_length exIfForBool = some 6 ∧ calc_length exNoEndFunc = none := by
  constructor
  · have h := claim_C7_length_amended.1 exIfForBool 1 6 rfl rfl
    simpa using h
  · exact claim_C7_length_amended.2.1 exNoEndFunc (Or.inr rfl)

-- ---------------------------------------------------------------------------
-- Claim C8 — file ratios lie in [0, 1]
-- ---------------------------------------------------------------------------

theorem ratio_bounds (c n : Nat) (h : c ≤ n) (hn : n ≠ 0) :
    0 ≤ ((c : ℚ) / (n : ℚ)) ∧ ((c : ℚ) / (n : ℚ)) ≤ 1 := by
  have hn' : (0 : ℚ) < (n : ℚ) := by
    exact_mod_cast Nat.pos_of_ne_zero hn
  refine ⟨by positivity, ?_⟩
  rw [div_le_one hn']
  exact_mod_cast h

theorem tally_bound (acc : Nat × List String) (ok : Bool) (msg : String)
    (h : acc.2.length ≤ acc.1) :
    (tally acc ok msg).2.length ≤ (tally acc ok msg).1 := by
  cases ok <;> simp [tally] <;> omega

theorem foldl_preserve {α : Type} (f : (Nat × List String) → α → Nat × List String)
    (hf : ∀ acc a, acc.2.length ≤ acc.1 → (f acc a).2.length ≤ (f acc a).1) :
    ∀ (l : List α) (acc : Nat × List String), acc.2.length ≤ acc.1 →
      (l.foldl f acc).2.length ≤ (l.foldl f acc).1
  | [], _, h => h
  | a :: as, acc, h => foldl_preserve f hf as (f acc a) (hf acc a h)

theorem check_func_and_class_names_bound (tree : PyNode) :
    (check_func_and_class_names tree).2.length ≤ (check_func_and_class_names tree).1 := by
  unfold check_func_and_class_names
  refine foldl_preserve _ ?_ _ _ (by simp)
  intro acc n h
  rcases n with ⟨k, l, e, cs⟩
  cases k <;> simp only [PyNode.kind] <;>
    first
      | exact h
      | exact tally_bound _ _ _ h

theorem check_arg_names_bound (tree : PyNode) :
    (check_arg_names tree).2.length ≤ (check_arg_names tree).1 := by
  unfold check_arg_names
  refine foldl_preserve _ ?_ _ _ (by simp)
  intro acc n h
  rcases n with ⟨k, l, e, cs⟩
  have step : ∀ (a : ArgSpec),
      ((a.args ++ a.kwonlyargs).foldl
        (fun ac nm => tally ac (_is_snake_case nm) s!"Argument name not snake_case: {nm}")
        acc).2.length ≤
      ((a.args ++ a.kwonlyargs).foldl
        (fun ac nm => tally ac (_is_snake_case nm) s!"Argument name not snake_case: {nm}")
        acc).1 := by
    intro a
    exact foldl_preserve _ (fun ac nm hh => tally_bound _ _ _ hh) _ _ h
  cases k <;> simp only [PyNode.kind] <;>
    first
      | exact h
      | (rename_i a
         rcases hv : a.vararg with _ | v <;> rcases hk : a.kwarg with _ | w <;>
           simp only [hv, hk] <;>
           first
             | exact step a
             | exact tally_bound _ _ _ (step a)
             | exact tally_bound _ _ _ (tally_bound _ _ _ (step a)))

theorem check_var_names_bound (tree : PyNode) :
    (check_var_names tree).2.length ≤ (check_var_names tree).1 := by
  unfold check_var_names
  refine foldl_preserve _ ?_ _ _ (by simp)
  intro acc nm h
  by_cases hskip : nm = "_" || isDunder nm
  · simpa [hskip] using h
  · simpa [hskip] using tally_bound _ _ _ h

theorem comment_ratio_bounds (lines : List String) :
    0 ≤ calc_comment_ratio lines ∧ calc_comment_ratio lines ≤ 1 := by
  unfold calc_comment_ratio
  split_ifs with h
  · norm_num
  · exact ratio_bounds _ _ (List.countP_le_length _) (by simpa using h)

theorem long_line_ratio_bounds (lines : List String) (limit : Nat) :
    0 ≤ calc_long_line_ratio lines limit ∧ calc_long_line_ratio lines limit ≤ 1 := by
  unfold calc_long_line_ratio
  split_ifs with h
  · norm_num
  · exact ratio_bounds _ _ (List.countP_le_length _) (by simpa using h)

theorem docstring_coverage_bounds (tree : PyNode) :
    0 ≤ calc_docstring_coverage tree ∧ calc_docstring_coverage tree ≤ 1 := by
  unfold calc_docstring_coverage
  dsimp only
  have hc : ((walk tree).filter (fun n => isDefKind n.kind)).countP
      (fun d => hasTruthyDocstring d) ≤
      ((walk tree).filter (fun n => isDefKind n.kind)).length :=
    List.countP_le_length _
  split_ifs <;>
    first
      | exact ratio_bounds _ _ (by omega) (by omega)
      | norm_num

theorem naming_issue_ratio_bounds (tree : PyNode) :
    0 ≤ (collect_naming_issues tree).1 ∧ (collect_naming_issues tree).1 ≤ 1 := by
  unfold collect_naming_issues
  dsimp only
  have h1 := check_func_and_class_names_bound tree
  have h2 := check_arg_names_bound tree
  have h3 := check_var_names_bound tree
  split_ifs with h
  · refine ratio_bounds _ _ ?_ (by omega)
    simp only [List.length_append]
    omega
  · norm_num

/-- C8: for every file the comment ratio, long-line ratio, docstring coverage
and naming-issue ratio all lie in [0, 1], and for an empty file (no lines, an
empty module tree) all four are 0 (with no naming issues and no unused
imports). -/
theorem claim_C8_ratios_in_unit_interval :
    (∀ (tree : PyNode) (lines : List String),
      (0 ≤ (collect_file_metrics tree lines).comment_ratio ∧
        (collect_file_metrics tree lines).comment_ratio ≤ 1) ∧
      (0 ≤ (collect_file_metrics tree lines).long_line_ratio ∧
        (collect_file_metrics tree lines).long_line_ratio ≤ 1) ∧
      (0 ≤ (collect_file_metrics tree lines).docstring_coverage ∧
        (collect_file_metrics tree lines).docstring_coverage ≤ 1) ∧
      (0 ≤ (collect_file_metrics tree lines).naming_issue_ratio ∧
        (collect_file_metrics tree lines).naming_issue_ratio ≤ 1)) ∧
    collect_file_metrics (.mk .module none none []) [] =
      { comment_ratio := 0, docstring_coverage := 0, long_line_ratio := 0,
        naming_issue_ratio := 0, naming_issues := [], unused_imports := [] } := by
  constructor
  · intro tree lines
    refine ⟨?_, ?_, ?_, ?_⟩
    · simpa [collect_file_metrics] using comment_ratio_bounds lines
    · simpa [collect_file_metrics] using long_line_ratio_bounds lines 79
    · simpa [collect_file_metrics] using docstring_coverage_bounds tree
    · simpa [collect_file_metrics] using naming_issue_ratio_bounds tree
  · simp [collect_file_metrics, calc_comment_ratio, calc_long_line_ratio,
      calc_docstring_coverage, collect_naming_issues, check_func_and_class_names,
      check_arg_names, check_var_names, store_names, calc_unused_imports,
      imported_names, used_names, walk, walkList, sortStrings,
      hasTruthyDocstring, isDefKind, PyNode.kind, PyNode.children]

-- ---------------------------------------------------------------------------
-- Claim C9 — per-file errors never corrupt the other files' results
-- ---------------------------------------------------------------------------

theorem GenResults.empty_append (a : GenResults) : GenResults.empty.append a = a := by
  cases a
  simp [GenResults.append, GenResults.empty]

theorem GenResults.append_empty (a : GenResults) : a.append GenResults.empty = a := by
  cases a
  simp [GenResults.append, GenResults.empty]

theorem GenResults.append_assoc (a b c : GenResults) :
    (a.append b).append c = a.append (b.append c) := by
  cases a
  cases b
  cases c
  simp [GenResults.append]

theorem foldl_genresults (th : Int) :
    ∀ (l : List FileInput) (acc : GenResults),
      l.foldl (fun a fi => a.append (process_file th fi)) acc =
        acc.append (generate_results l th) := by
  intro l
  induction l with
  | nil => intro acc; simp [generate_results, GenResults.append_empty]
  | cons fi rest ih =>
      intro acc
      simp only [generate_results, List.foldl_cons] at ih ⊢
      rw [ih, ih (GenResults.empty.append (process_file th fi)),
        GenResults.empty_append, GenResults.append_assoc]

theorem generate_results_append (as bs : List FileInput) (th : Int) :
    generate_results (as ++ bs) th =
      (generate_results as th).append (generate_results bs th) := by
  simp only [generate_results, List.foldl_append]
  exact foldl_genresults th bs _

theorem generate_results_cons (fi : FileInput) (rest : List FileInput) (th : Int) :
    generate_results (fi :: rest) th =
      (process_file th fi).append (generate_results rest th) := by
  simp only [generate_results, List.foldl_cons]
  rw [← generate_results, foldl_genresults, GenResults.empty_append]

/-- C9: when a file of the input list fails to parse or decode, the run goes
on: that file contributes exactly one message to the error stream and no
record to any of the four result lists, and the four result lists equal those
of a run in which the failing file is absent. -/
theorem claim_C9_parse_error_isolated :
    ∀ (pre post : List FileInput) (bad : FileInput) (threshold : Int),
      (∃ m, bad.outcome = .parseError m ∨ bad.outcome = .otherError m) →
      ∃ emsg,
        process_file threshold bad = ⟨[], [], [], [], [emsg]⟩ ∧
        (generate_results (pre ++ bad :: post) threshold).func_results
          = (generate_results (pre ++ post) threshold).func_results ∧
        (generate_results (pre ++ bad :: post) threshold).file_summaries
          = (generate_results (pre ++ post) threshold).file_summaries ∧
        (generate_results (pre ++ bad :: post) threshold).func_stats
          = (generate_results (pre ++ post) threshold).func_stats ∧
        (generate_results (pre ++ bad :: post) threshold).file_stats
          = (generate_results (pre ++ post) threshold).file_stats ∧
        (generate_results (pre ++ bad :: post) threshold).errors
          = (generate_results pre threshold).errors ++
            emsg :: (generate_results post threshold).errors := by
  intro pre post bad threshold hfail
  rcases bad with ⟨path, outcome⟩
  have hproc : ∃ emsg,
      process_file threshold ⟨path, outcome⟩ = ⟨[], [], [], [], [emsg]⟩ := by
    rcases hfail with ⟨m, hm | hm⟩ <;> simp_all [process_file] <;> exact ⟨_, rfl⟩
  rcases hproc with ⟨emsg, hp⟩
  refine ⟨emsg, hp, ?_⟩
  rw [generate_results_append, generate_results_cons, generate_results_append, hp]
  simp [GenResults.append]

/-- `def ok(): pass` in a well-formed companion file. -/
def exGoodInput : FileInput :=
  ⟨"good.py", .parsed (.mk .module none none
    [.mk (.functionDef "ok" noArgs) (some 1) (some 2) [passNode]]) ["def ok():", "    pass"]⟩

def exBadInput : FileInput :=
  ⟨"bad.py", .parseError "invalid syntax (bad.py, line 1)"⟩

theorem claim_C9_parse_error_isolated_witness :
    ∃ emsg,
      process_file 1 exBadInput = ⟨[], [], [], [], [emsg]⟩ ∧
      (generate_results ([exGoodInput] ++ exBadInput :: []) 1).func_results
        = (generate_results ([exGoodInput] ++ []) 1).func_results ∧
      (generate_results ([exGoodInput] ++ exBadInput :: []) 1).file_summaries
        = (generate_results ([exGoodInput] ++ []) 1).file_summaries ∧
      (generate_results ([exGoodInput] ++ exBadInput :: []) 1).func_stats
        = (generate_results ([exGoodInput] ++ []) 1).func_stats ∧
      (generate_results ([exGoodInput] ++ exBadInput :: []) 1).file_stats
        = (generate_results ([exGoodInput] ++ []) 1).file_stats ∧
      (generate_results ([exGoodInput] ++ exBadInput :: []) 1).errors
        = (generate_results [exGoodInput] 1).errors ++
          emsg :: (generate_results ([] : List FileInput) 1).errors :=
  claim_C9_parse_error_isolated [exGoodInput] [] exBadInput 1
    ⟨"invalid syntax (bad.py, line 1)", Or.inl rfl⟩

-- ---------------------------------------------------------------------------
-- Claim C10 — ignore-filtered-to-empty asymmetry in file discovery
-- ---------------------------------------------------------------------------

/-- C10: `get_python_files` treats an ignore-filtered-to-empty result
asymmetrically — a `.py` file whose path matches an ignore substring yields
the empty list without raising, while a directory whose recursive glob is
left empty by the ignore filter (or finds nothing) raises a
`FileNotFoundError`. -/
theorem claim_C10_empty_result_asymmetry :
    (∀ (path : String) (ignore : List String),
      skipPath ignore path = true →
      get_python_files path (.fsFile ".py") ignore = .ok []) ∧
    (∀ (path : String) (pyFiles : List String) (ignore : List String),
      pyFiles.filter (fun f => !(skipPath ignore f)) = [] →
      ∃ msg, get_python_files path (.fsDir pyFiles) ignore = .error msg) ∧
    get_python_files "pkg/venv/mod.py" (.fsFile ".py") ["venv"] = .ok [] ∧
    get_python_files "pkg" (.fsDir ["pkg/venv/a.py"]) ["venv"] =
      .error "No Python files found in directory \x27pkg\x27 (after ignore filter)." := by
  refine ⟨?_, ?_, by rfl, by rfl⟩
  · intro path ignore h
    simp [get_python_files, h]
  · intro path pyFiles ignore h
    refine ⟨s!"No Python files found in directory \x27{path}\x27 (after ignore filter).", ?_⟩
    simp [get_python_files, h]

theorem claim_C10_empty_result_asymmetry_witness :
    get_python_files "a/skipme/b.py" (.fsFile ".py") ["skipme"] = .ok [] ∧
    (∃ msg, get_python_files "d" (.fsDir ["d/skipme/x.py"]) ["skipme"] = .error msg) :=
  ⟨claim_C10_empty_result_asymmetry.1 "a/skipme/b.py" ["skipme"] (by decide),
   claim_C10_empty_result_asymmetry.2.1 "d" ["d/skipme/x.py"] ["skipme"] (by decide)⟩

end CycloCalc
